import Mathlib

/-!
Verification development for the real-time file-listing synchronization client
(`src/frontend/src/App.js` and `src/frontend/src/services/websocket.js`).

The reconciler handlers (`handleAddedEvent`, `handleDeletedEvent`,
`handleRenamedEvent`) are embedded as pure functions from the incoming message
and the previous list of items to the new list, exactly mirroring the bodies of
the `setFileList` updater callbacks in `App.js`.  The connection manager
(`WebSocketService`) is embedded as explicit state passing over a `WSState`
record, with one Lean function per JS event handler or method; messages sent on
the wire are returned as explicit lists.
-/

/-- An entry of the file listing, mirroring the item objects that flow through
`App.js` (`ItemId`, `Name`, `ParentId`, `Type`).  The JS field `Type` is named
`itemType` here because `Type` is a Lean keyword. -/
structure Item where
  ItemId : String
  Name : String
  ParentId : String
  itemType : String
deriving DecidableEq, Repr

/-- Payload of an `ADDED` frame as consumed by `handleAddedEvent`:
`message.path` and `message.data` (the new item). -/
structure AddedMsg where
  path : String
  data : Item
deriving DecidableEq, Repr

/-- The `data` object of a `DELETED` frame: `message.data.ItemId`. -/
structure DeletedData where
  ItemId : String
deriving DecidableEq, Repr

/-- Payload of a `DELETED` frame as consumed by `handleDeletedEvent`. -/
structure DeletedMsg where
  path : String
  data : DeletedData
deriving DecidableEq, Repr

/-- The `data` object of a `RENAMED` frame: `message.data.item`. -/
structure RenamedData where
  item : Item
deriving DecidableEq, Repr

/-- Payload of a `RENAMED` frame as consumed by `handleRenamedEvent`. -/
structure RenamedMsg where
  path : String
  data : RenamedData
deriving DecidableEq, Repr

/-- `App.js` lines 29-46.  The updater passed to `setFileList`: if an item with
the same `ItemId` already exists the list is returned unchanged, otherwise the
new item is appended.  Note that `message.path` is only logged by the source,
never consulted. -/
def handleAddedEvent (message : AddedMsg) (prevList : List Item) : List Item :=
  let newItem := message.data
  let exists_ := prevList.any (fun item => item.ItemId == newItem.ItemId)
  if exists_ then prevList
  else prevList ++ [newItem]

/-- `App.js` lines 48-52.  Removes every item whose `ItemId` equals
`message.data.ItemId` (a `filter` keeping the non-matching items). -/
def handleDeletedEvent (message : DeletedMsg) (prevList : List Item) : List Item :=
  let deletedItemId := message.data.ItemId
  prevList.filter (fun item => item.ItemId != deletedItemId)

/-- `App.js` lines 54-60.  Replaces each item whose `ItemId` equals the
updated item's `ItemId` by the updated item (a `map`). -/
def handleRenamedEvent (message : RenamedMsg) (prevList : List Item) : List Item :=
  let updatedItem := message.data.item
  prevList.map (fun item =>
    if item.ItemId == updatedItem.ItemId then updatedItem else item)

/-- A typed inbound change event, the tagged union over the three frame shapes
dispatched to the three `App.js` handlers. -/
inductive ChangeEvent where
  | added (msg : AddedMsg)
  | deleted (msg : DeletedMsg)
  | renamed (msg : RenamedMsg)
deriving DecidableEq, Repr

/-- Applying one inbound change event to the local collection: exactly the
handler the `App.js` registration table routes it to.  None of the three
handlers reads the event's `path` field. -/
def applyChangeEvent (e : ChangeEvent) (l : List Item) : List Item :=
  match e with
  | .added m => handleAddedEvent m l
  | .deleted m => handleDeletedEvent m l
  | .renamed m => handleRenamedEvent m l

/-- The `path` field carried by an inbound change event. -/
def ChangeEvent.path : ChangeEvent → String
  | .added m => m.path
  | .deleted m => m.path
  | .renamed m => m.path

-- A concrete item used by several closed statements below.
def sampleItem : Item :=
  { ItemId := "1", Name := "a.txt", ParentId := "root", itemType := "FILE" }

def sampleItem2 : Item :=
  { ItemId := "2", Name := "b.txt", ParentId := "root", itemType := "FILE" }

/-!
Embedding of `src/frontend/src/services/websocket.js` (`WebSocketService`).

The mutable fields of the singleton are gathered in `WSState`; each JS method
or transport event handler becomes a function `WSState → WSState × outputs`.
`ws` is `none` when `this.ws === null`, otherwise `some readyState`.  Timers
are flattened: a function returns the delay of a timeout it schedules
(`Option Nat`, `none` when nothing is scheduled), and the body of the timeout
is modelled where its effect is needed.
-/

/-- The `readyState` of a browser `WebSocket` object. -/
inductive ReadyState where
  | CONNECTING
  | OPEN
  | CLOSING
  | CLOSED
deriving DecidableEq, Repr

/-- The mutable state of `WebSocketService` (`websocket.js` lines 2-14). -/
structure WSState where
  ws : Option ReadyState
  userId : Option String
  currentPath : Option String
  reconnectAttempts : Nat
  maxReconnectAttempts : Nat
  reconnectDelay : Nat
deriving DecidableEq, Repr

/-- The constructor state (`websocket.js` lines 2-14): no socket, no user, no
path, counter 0, at most 5 attempts, base delay 1000 ms. -/
def initialWSState : WSState :=
  { ws := none, userId := none, currentPath := none,
    reconnectAttempts := 0, maxReconnectAttempts := 5, reconnectDelay := 1000 }

/-- An outbound control frame, e.g. `{ type: "subscribe", path: p }`. -/
structure OutMsg where
  type : String
  path : String
deriving DecidableEq, Repr

/-- `WebSocketService.connect` (`websocket.js` lines 16-36, success path):
if a socket exists and is `OPEN` the call is a no-op, otherwise `userId` is
recorded and a fresh socket is constructed in the `CONNECTING` state.  The
returned `Bool` is `true` exactly when a new `WebSocket` was constructed
(a connection attempt was made). -/
def connect (userId : String) (s : WSState) : WSState × Bool :=
  if s.ws = some ReadyState.OPEN then (s, false)
  else ({ s with userId := some userId, ws := some ReadyState.CONNECTING }, true)

/-- `WebSocketService.attemptReconnect` (`websocket.js` lines 103-116): while
the counter is below the maximum, increment it and schedule a `connect` after
`reconnectDelay * reconnectAttempts` ms (the already-incremented counter);
otherwise only log.  The second component is the delay of the scheduled
timeout, `none` when no further attempt is scheduled. -/
def attemptReconnect (s : WSState) : WSState × Option Nat :=
  if s.reconnectAttempts < s.maxReconnectAttempts then
    let s' := { s with reconnectAttempts := s.reconnectAttempts + 1 }
    (s', some (s.reconnectDelay * s'.reconnectAttempts))
  else
    (s, none)

/-- The `onopen` handler (`websocket.js` lines 38-64).  The browser has just
moved the socket to `OPEN`; the handler zeroes `reconnectAttempts` and, when a
`currentPath` is recorded, schedules a 10 ms timeout that sends one
`{type: "subscribe", path}` frame provided the socket is still `OPEN` when the
timeout fires; `stillOpenAtTimer` is that guard's outcome.  The second
component lists the frames sent. -/
def onOpen (stillOpenAtTimer : Bool) (s : WSState) : WSState × List OutMsg :=
  let s' : WSState := { s with ws := some ReadyState.OPEN, reconnectAttempts := 0 }
  match s'.currentPath with
  | some p =>
      if stillOpenAtTimer then (s', [{ type := "subscribe", path := p }])
      else (s', [])
  | none => (s', [])

/-- The `onclose` handler (`websocket.js` lines 93-96): the browser marks the
socket `CLOSED` (when the service still holds a reference) and the handler
unconditionally calls `attemptReconnect`. -/
def onClose (s : WSState) : WSState × Option Nat :=
  attemptReconnect { s with ws := s.ws.map (fun _ => ReadyState.CLOSED) }

/-- `WebSocketService.subscribePath` (`websocket.js` lines 118-146): record
the path as `currentPath`; if the socket is `OPEN`, send the subscribe frame
immediately, otherwise only keep the recorded path for the next open. -/
def subscribePath (path : String) (s : WSState) : WSState × List OutMsg :=
  let s' : WSState := { s with currentPath := some path }
  if s'.ws = some ReadyState.OPEN then
    (s', [{ type := "subscribe", path := path }])
  else
    (s', [])

/-- `WebSocketService.disconnect` (`websocket.js` lines 162-167): when a
socket is held, call `close()` on it and null the reference.  No other field
is touched; in particular no flag suppressing reconnection is set and the
socket's `onclose` handler stays installed. -/
def disconnect (s : WSState) : WSState :=
  match s.ws with
  | some _ => { s with ws := none }
  | none => s

/-- `n` consecutive failed connection cycles: each cycle ends with the
transport close event, whose handler runs `attemptReconnect`. -/
def iterFail : Nat → WSState → WSState
  | 0, s => s
  | n + 1, s => iterFail n (onClose s).1

/-!
Embedding of the event registry and the `onmessage` dispatcher
(`websocket.js` lines 9-13, 66-87, 148-160).

A JS observer callback is modelled by a `Handler`: `ident` stands for the
function object's identity (two registrations of the same function share an
`ident`, distinct functions have distinct `ident`s, so Lean equality on
`Handler` models the `!==` reference comparison in `off`), and `throws` says
whether invoking it raises an exception. -/

/-- Model of an observer callback: its identity and whether it throws. -/
structure Handler where
  ident : Nat
  throws : Bool
deriving DecidableEq, Repr

/-- The notification kinds for which `eventHandlers` has a slot
(`websocket.js` lines 9-13). -/
inductive EventKind where
  | ADDED
  | DELETED
  | RENAMED
deriving DecidableEq, Repr

/-- The `eventHandlers` table: one ordered observer list per kind. -/
structure EventHandlers where
  added : List Handler
  deleted : List Handler
  renamed : List Handler
deriving DecidableEq, Repr

/-- The empty registry the constructor builds. -/
def emptyHandlers : EventHandlers :=
  { added := [], deleted := [], renamed := [] }

/-- `this.eventHandlers[eventType]`. -/
def EventHandlers.get (eh : EventHandlers) : EventKind → List Handler
  | .ADDED => eh.added
  | .DELETED => eh.deleted
  | .RENAMED => eh.renamed

/-- Replace the list stored for one kind. -/
def EventHandlers.set (eh : EventHandlers) : EventKind → List Handler → EventHandlers
  | .ADDED, l => { eh with added := l }
  | .DELETED, l => { eh with deleted := l }
  | .RENAMED, l => { eh with renamed := l }

/-- `WebSocketService.on` (`websocket.js` lines 148-152): push the handler
onto the list for the kind.  (The JS guard rejecting unknown string kinds is
vacuous here because `EventKind` is the closed set of known kinds.) -/
def wsOn (eventType : EventKind) (handler : Handler) (eh : EventHandlers) :
    EventHandlers :=
  eh.set eventType (eh.get eventType ++ [handler])

/-- `WebSocketService.off` (`websocket.js` lines 154-160): replace the list
for the kind by its `filter (h => h !== handler)`, i.e. drop EVERY entry equal
to the handler. -/
def wsOff (eventType : EventKind) (handler : Handler) (eh : EventHandlers) :
    EventHandlers :=
  eh.set eventType ((eh.get eventType).filter (fun h => h != handler))

/-- JS `forEach(handler => handler(message))` semantics when a callback may
throw: callbacks run in list order; the first exception aborts the iteration
and propagates.  Returns the `ident`s actually invoked (in order) and whether
an exception escaped the loop. -/
def runHandlers : List Handler → List Nat × Bool
  | [] => ([], false)
  | h :: rest =>
    if h.throws then ([h.ident], true)
    else
      let r := runHandlers rest
      (h.ident :: r.1, r.2)

/-- Outcome of one `onmessage` invocation. -/
structure DispatchResult where
  invoked : List Nat
  connectionTornDown : Bool
deriving DecidableEq, Repr

/-- The dispatch stage of the `onmessage` handler (`websocket.js` lines
66-87) for a successfully parsed frame of some kind: the whole body, the
`forEach` over the registered observers included, sits inside one
`try { ... } catch (error) { console.error(...) }`, so an exception escaping
the loop is logged and swallowed; nothing closes the socket. -/
def onmessageDispatch (eh : EventHandlers) (eventType : EventKind) :
    DispatchResult :=
  let r := runHandlers (eh.get eventType)
  { invoked := r.1, connectionTornDown := false }

/-- Number of items carrying a given id. -/
def countId (X : String) (l : List Item) : Nat :=
  l.countP (fun item => item.ItemId == X)

-- Concrete messages used by closed statements below.
def sampleAdded : AddedMsg := { path := "", data := sampleItem }

/-- A registry with three observers on `ADDED`, the middle one throwing. -/
def sampleRegistry : EventHandlers :=
  wsOn .ADDED { ident := 8, throws := false }
    (wsOn .ADDED { ident := 7, throws := true }
      (wsOn .ADDED { ident := 5, throws := false } emptyHandlers))

/-!
Helper lemmas shared by several claim theorems.
-/

/-- The rename `map` is the identity on a list containing no item with the
updated item's id. -/
theorem map_rename_eq_self (u : Item) (l : List Item)
    (h : ∀ x ∈ l, x.ItemId ≠ u.ItemId) :
    l.map (fun item => if item.ItemId == u.ItemId then u else item) = l := by
  induction l with
  | nil => rfl
  | cons a t ih =>
    have ha : a.ItemId ≠ u.ItemId := h a (by simp)
    simp only [List.map_cons]
    rw [if_neg (by simpa using ha), ih (fun x hx => h x (by simp [hx]))]

/-- The rename `map` leaves the list of ids unchanged: positions matching the
updated item's id receive an item with that very id. -/
theorem map_rename_ids (u : Item) (l : List Item) :
    (l.map (fun item => if item.ItemId == u.ItemId then u else item)).map
        Item.ItemId = l.map Item.ItemId := by
  rw [List.map_map]
  refine List.map_congr_left (fun x _ => ?_)
  by_cases hx : x.ItemId = u.ItemId
  · simp [Function.comp, hx]
  · simp [Function.comp, if_neg (by simpa using hx)]

/-- `handleAddedEvent` when some item with the incoming id is present:
the list is unchanged. -/
theorem handleAddedEvent_of_mem (message : AddedMsg) (prevList : List Item)
    (h : ∃ x ∈ prevList, x.ItemId = message.data.ItemId) :
    handleAddedEvent message prevList = prevList := by
  unfold handleAddedEvent
  have : prevList.any (fun item => item.ItemId == message.data.ItemId) = true := by
    rcases h with ⟨x, hx, hid⟩
    exact List.any_eq_true.mpr ⟨x, hx, by simpa using hid⟩
  simp [this]

/-- `handleAddedEvent` when no item with the incoming id is present:
the new item is appended. -/
theorem handleAddedEvent_of_not_mem (message : AddedMsg) (prevList : List Item)
    (h : ∀ x ∈ prevList, x.ItemId ≠ message.data.ItemId) :
    handleAddedEvent message prevList = prevList ++ [message.data] := by
  unfold handleAddedEvent
  have : prevList.any (fun item => item.ItemId == message.data.ItemId) = false := by
    refine List.any_eq_false.mpr (fun x hx => ?_)
    simpa using h x hx
  simp [this]

/-- `runHandlers` on a throw-free list invokes everybody and no exception
escapes. -/
theorem runHandlers_no_throw (hs : List Handler)
    (h : ∀ g ∈ hs, g.throws = false) :
    runHandlers hs = (hs.map Handler.ident, false) := by
  induction hs with
  | nil => rfl
  | cons a t ih =>
    have ha : a.throws = false := h a (by simp)
    simp [runHandlers, ha, ih (fun g hg => h g (by simp [hg]))]

/-- `runHandlers` stops at the first throwing handler: the throw-free prefix
and the thrower are invoked, the exception escapes the loop. -/
theorem runHandlers_first_throw (pre : List Handler) (h : Handler)
    (post : List Handler) (hpre : ∀ g ∈ pre, g.throws = false)
    (hth : h.throws = true) :
    runHandlers (pre ++ h :: post) = (pre.map Handler.ident ++ [h.ident], true) := by
  induction pre with
  | nil => simp [runHandlers, hth]
  | cons a t ih =>
    have ha : a.throws = false := hpre a (by simp)
    simp [runHandlers, ha, ih (fun g hg => hpre g (by simp [hg]))]

/-- Writing then reading the same kind's slot. -/
theorem EventHandlers.get_set_self (eh : EventHandlers) (k : EventKind)
    (l : List Handler) : (eh.set k l).get k = l := by
  cases k <;> rfl

/-!
Claim theorems for the Listing Reconciler (`App.js`).
-/

/-- Claim C1 (failing input): the reconciler handlers never consult the
notification's `path` field. With active path `"/a"`, an `ADDED` notification
tagged `path="/b"` still appends its item to the empty collection (mutating
it), and a `DELETED` notification tagged `path="/b"` still removes the item,
instead of both being ignored as the claim states. -/
theorem path_mismatch_still_applied :
    "/b" ≠ "/a"
    ∧ applyChangeEvent (.added { path := "/b", data := sampleItem }) []
        = [sampleItem]
    ∧ [sampleItem] ≠ ([] : List Item)
    ∧ applyChangeEvent (.deleted { path := "/b", data := { ItemId := "1" } })
        [sampleItem] = [] := by
  decide

/-- Claim C6: on a collection holding at most one item with the incoming id,
applying the same `ADDED` notification twice yields exactly one item with that
id; moreover an `ADDED` whose id is already present leaves the collection
unchanged, and an `ADDED` whose id is absent appends the new item. -/
theorem added_idempotent (message : AddedMsg) (prevList : List Item)
    (h : countId message.data.ItemId prevList ≤ 1) :
    countId message.data.ItemId
        (handleAddedEvent message (handleAddedEvent message prevList)) = 1
    ∧ ((∃ x ∈ prevList, x.ItemId = message.data.ItemId) →
        handleAddedEvent message prevList = prevList)
    ∧ ((∀ x ∈ prevList, x.ItemId ≠ message.data.ItemId) →
        handleAddedEvent message prevList = prevList ++ [message.data]) := by
  refine ⟨?_, handleAddedEvent_of_mem message prevList,
    handleAddedEvent_of_not_mem message prevList⟩
  by_cases hmem : ∃ x ∈ prevList, x.ItemId = message.data.ItemId
  · rw [handleAddedEvent_of_mem message prevList hmem,
      handleAddedEvent_of_mem message prevList hmem]
    have h1 : 0 < countId message.data.ItemId prevList := by
      rcases hmem with ⟨x, hx, hid⟩
      exact List.countP_pos_iff.mpr ⟨x, hx, by simpa using hid⟩
    omega
  · push_neg at hmem
    rw [handleAddedEvent_of_not_mem message prevList hmem,
      handleAddedEvent_of_mem message (prevList ++ [message.data])
        ⟨message.data, by simp, rfl⟩]
    unfold countId
    rw [List.countP_append]
    have h0 : prevList.countP (fun item => item.ItemId == message.data.ItemId)
        = 0 :=
      List.countP_eq_zero.mpr (fun x hx => by simpa using hmem x hx)
    simp [h0]

/-- Witness for `added_idempotent` at the concrete collection `[sampleItem2]`
(ids `"2"`), receiving `ADDED` of `sampleItem` (id `"1"`). -/
theorem added_idempotent_witness :
    countId sampleAdded.data.ItemId [sampleItem2] ≤ 1
    ∧ (countId sampleAdded.data.ItemId
          (handleAddedEvent sampleAdded (handleAddedEvent sampleAdded
            [sampleItem2])) = 1
      ∧ ((∃ x ∈ [sampleItem2], x.ItemId = sampleAdded.data.ItemId) →
          handleAddedEvent sampleAdded [sampleItem2] = [sampleItem2])
      ∧ ((∀ x ∈ [sampleItem2], x.ItemId ≠ sampleAdded.data.ItemId) →
          handleAddedEvent sampleAdded [sampleItem2]
            = [sampleItem2] ++ [sampleAdded.data])) :=
  ⟨by decide, added_idempotent sampleAdded [sampleItem2] (by decide)⟩

/-- Claim C7: a `DELETED` or `RENAMED` notification whose id matches no item
of the collection leaves the collection unchanged (both handlers are total
functions, so no error is raised). -/
theorem noop_on_unmatched (Y : String) (dmsg : DeletedMsg) (rmsg : RenamedMsg)
    (prevList : List Item)
    (hd : dmsg.data.ItemId = Y) (hr : rmsg.data.item.ItemId = Y)
    (h : ∀ x ∈ prevList, x.ItemId ≠ Y) :
    handleDeletedEvent dmsg prevList = prevList
    ∧ handleRenamedEvent rmsg prevList = prevList := by
  constructor
  · unfold handleDeletedEvent
    refine List.filter_eq_self.mpr (fun a ha => ?_)
    exact bne_iff_ne.mpr (by rw [hd]; exact h a ha)
  · unfold handleRenamedEvent
    exact map_rename_eq_self _ _ (fun x hx => by rw [hr]; exact h x hx)

/-- Witness for `noop_on_unmatched`: deleting and renaming id `"9"` in the
collection `[sampleItem]` (ids `"1"`) changes nothing. -/
theorem noop_on_unmatched_witness :
    let dmsg : DeletedMsg := { path := "", data := { ItemId := "9" } }
    let rmsg : RenamedMsg :=
      { path := "",
        data := { item := { ItemId := "9", Name := "x", ParentId := "root",
                            itemType := "FILE" } } }
    dmsg.data.ItemId = "9" ∧ rmsg.data.item.ItemId = "9"
    ∧ (∀ x ∈ [sampleItem], x.ItemId ≠ "9")
    ∧ (handleDeletedEvent dmsg [sampleItem] = [sampleItem]
       ∧ handleRenamedEvent rmsg [sampleItem] = [sampleItem]) :=
  ⟨rfl, rfl, by decide,
    noop_on_unmatched "9" _ _ [sampleItem] rfl rfl (by decide)⟩

/-- Claim C9: each of the three handlers maps a collection whose item ids are
pairwise distinct to a collection whose item ids are pairwise distinct. -/
theorem id_uniqueness_preserved (e : ChangeEvent) (l : List Item)
    (h : (l.map Item.ItemId).Nodup) :
    ((applyChangeEvent e l).map Item.ItemId).Nodup := by
  cases e with
  | added m =>
    show ((handleAddedEvent m l).map Item.ItemId).Nodup
    by_cases hmem : ∃ x ∈ l, x.ItemId = m.data.ItemId
    · rw [handleAddedEvent_of_mem m l hmem]; exact h
    · push_neg at hmem
      rw [handleAddedEvent_of_not_mem m l hmem, List.map_append]
      refine List.nodup_append.mpr ⟨h, List.nodup_singleton _, ?_⟩
      intro a ha hb
      rcases List.mem_map.mp ha with ⟨x, hx, rfl⟩
      have hb' : x.ItemId = m.data.ItemId := by simpa using hb
      exact hmem x hx hb'
  | deleted m =>
    show ((handleDeletedEvent m l).map Item.ItemId).Nodup
    exact h.sublist ((List.filter_sublist l).map Item.ItemId)
  | renamed m =>
    show ((handleRenamedEvent m l).map Item.ItemId).Nodup
    unfold handleRenamedEvent
    rw [map_rename_ids]
    exact h

/-- Witness for `id_uniqueness_preserved`: adding `sampleItem` to
`[sampleItem2]` keeps the ids pairwise distinct. -/
theorem id_uniqueness_preserved_witness :
    (([sampleItem2].map Item.ItemId).Nodup)
    ∧ ((applyChangeEvent (.added sampleAdded) [sampleItem2]).map
        Item.ItemId).Nodup :=
  ⟨by decide, id_uniqueness_preserved (.added sampleAdded) [sampleItem2]
    (by decide)⟩

/-- Claim C10: a `DELETED` notification removes every item whose id equals
the carried id (duplicates included), keeps the surviving items in their
original relative order (the result is a sublist of the input), and modifies
no surviving item (an item is in the result exactly when it was in the input
with a different id). -/
theorem deleted_removes_all (message : DeletedMsg) (prevList : List Item) :
    (handleDeletedEvent message prevList).Sublist prevList
    ∧ ∀ x : Item, x ∈ handleDeletedEvent message prevList ↔
        x ∈ prevList ∧ x.ItemId ≠ message.data.ItemId := by
  constructor
  · exact List.filter_sublist prevList
  · intro x
    unfold handleDeletedEvent
    simp [List.mem_filter, bne_iff_ne]

/-!
Claim theorems for the dispatcher and the event registry (`websocket.js`).
-/

/-- Claim C2 counterexample: with two observers registered for `ADDED`, the
first of which throws, only the first is invoked — the `forEach` is aborted
by the exception, which is caught by the single message-level `try/catch`, so
the second observer never runs. -/
theorem observer_throw_stops_dispatch :
    (onmessageDispatch
        (wsOn .ADDED { ident := 1, throws := false }
          (wsOn .ADDED { ident := 0, throws := true } emptyHandlers))
        EventKind.ADDED).invoked = [0]
    ∧ ([0] : List Nat) ≠ [0, 1] := by
  decide

/-- Claim C2 amended: for a parsed frame, observers are invoked in
registration order up to and including the first that throws; an exception
raised by an observer is caught by the message-level handler, so the
connection is never torn down; when no observer throws, every observer is
invoked. -/
theorem dispatch_invocation_behavior (eh : EventHandlers) (k : EventKind) :
    (onmessageDispatch eh k).connectionTornDown = false
    ∧ ((∀ g ∈ eh.get k, g.throws = false) →
        (onmessageDispatch eh k).invoked = (eh.get k).map Handler.ident)
    ∧ (∀ pre h post, eh.get k = pre ++ h :: post →
        (∀ g ∈ pre, g.throws = false) → h.throws = true →
        (onmessageDispatch eh k).invoked = pre.map Handler.ident ++ [h.ident]) := by
  have hd : (onmessageDispatch eh k).invoked = (runHandlers (eh.get k)).1 := rfl
  refine ⟨rfl, fun hall => ?_, fun pre h post heq hpre hth => ?_⟩
  · rw [hd, runHandlers_no_throw _ hall]
  · rw [hd, heq, runHandlers_first_throw pre h post hpre hth]

/-- Witness for `dispatch_invocation_behavior` on `sampleRegistry`
(observers 5, 7, 8 where 7 throws): invoked = [5, 7], connection intact. -/
theorem dispatch_invocation_behavior_witness :
    (onmessageDispatch sampleRegistry EventKind.ADDED).invoked = [5, 7]
    ∧ (onmessageDispatch sampleRegistry EventKind.ADDED).connectionTornDown
        = false :=
  ⟨(dispatch_invocation_behavior sampleRegistry EventKind.ADDED).2.2
      [{ ident := 5, throws := false }] { ident := 7, throws := true }
      [{ ident := 8, throws := false }] (by decide) (by decide) rfl,
    (dispatch_invocation_behavior sampleRegistry EventKind.ADDED).1⟩

/-- Claim C4 counterexample: registering the same handler twice for `ADDED`
and un-registering it once leaves ZERO active registrations, not one —
`off` filters out every `!==`-equal entry. -/
theorem off_removes_all_matches_cex :
    ((wsOff .ADDED { ident := 0, throws := false }
        (wsOn .ADDED { ident := 0, throws := false }
          (wsOn .ADDED { ident := 0, throws := false } emptyHandlers))).get
      EventKind.ADDED).length = 0
    ∧ (0 : Nat) ≠ 1 := by
  decide

/-- Claim C4 amended: `on(K, h)` appends `h` and each call is tracked
independently, but `off(K, h)` removes EVERY structurally-equal match
(a `filter`), so registering `h` twice for `K` and un-registering once leaves
zero active registrations of `h` for `K`. -/
theorem on_off_registration (eh : EventHandlers) (k : EventKind) (h : Handler) :
    (wsOn k h eh).get k = eh.get k ++ [h]
    ∧ (wsOff k h eh).get k = (eh.get k).filter (fun g => g != h)
    ∧ ((wsOff k h (wsOn k h (wsOn k h eh))).get k).count h = 0 := by
  refine ⟨EventHandlers.get_set_self eh k _, EventHandlers.get_set_self eh k _, ?_⟩
  rw [show (wsOff k h (wsOn k h (wsOn k h eh))).get k
      = ((wsOn k h (wsOn k h eh)).get k).filter (fun g => g != h) from
      EventHandlers.get_set_self _ k _]
  refine List.count_eq_zero.mpr (fun hc => ?_)
  have := (List.mem_filter.mp hc).2
  simp at this

/-!
Claim theorems for the Connection Manager (`websocket.js`).
-/

/-- Claim C3 counterexample: starting from a freshly opened connection for
user `"userDanilo"`, calling `disconnect` and then letting the transport's
close event fire yields a scheduled reconnect attempt after 1000 ms (the
attempt counter moves to 1 and `userId` is still set, so the scheduled
timeout will reconnect) — the explicit close does not suppress the
reconnection algorithm. -/
theorem disconnect_does_not_suppress_reconnect :
    (onClose (disconnect
        (onOpen true ((connect "userDanilo" initialWSState).1)).1)).2
      = some 1000
    ∧ (onClose (disconnect
        (onOpen true ((connect "userDanilo" initialWSState).1)).1)).1.reconnectAttempts
      = 1
    ∧ (disconnect
        (onOpen true ((connect "userDanilo" initialWSState).1)).1).userId
      = some "userDanilo" := by
  decide

/-- Claim C3 amended: `disconnect` nulls the socket reference but records no
suppression flag, so the transport close event resulting from the explicit
close still runs the reconnection algorithm: while the attempt budget is not
exhausted, a reconnect is scheduled after
`reconnectDelay * (reconnectAttempts + 1)` ms, and `userId` is left in place
so the scheduled timeout will reconnect. -/
theorem close_after_disconnect_schedules_reconnect (s : WSState)
    (h : s.reconnectAttempts < s.maxReconnectAttempts) :
    (onClose (disconnect s)).2
        = some (s.reconnectDelay * (s.reconnectAttempts + 1))
    ∧ (onClose (disconnect s)).1.reconnectAttempts = s.reconnectAttempts + 1
    ∧ (disconnect s).userId = s.userId := by
  unfold onClose attemptReconnect disconnect
  cases hws : s.ws <;> simp [h]

/-- Witness for `close_after_disconnect_schedules_reconnect` at the concrete
state reached by connecting and opening for `"userDanilo"`. -/
theorem close_after_disconnect_schedules_reconnect_witness :
    (onOpen true ((connect "userDanilo" initialWSState).1)).1.reconnectAttempts
        < (onOpen true ((connect "userDanilo" initialWSState).1)).1.maxReconnectAttempts
    ∧ ((onClose (disconnect
          (onOpen true ((connect "userDanilo" initialWSState).1)).1)).2
        = some ((onOpen true ((connect "userDanilo" initialWSState).1)).1.reconnectDelay
            * ((onOpen true ((connect "userDanilo" initialWSState).1)).1.reconnectAttempts + 1))
      ∧ (onClose (disconnect
          (onOpen true ((connect "userDanilo" initialWSState).1)).1)).1.reconnectAttempts
        = (onOpen true ((connect "userDanilo" initialWSState).1)).1.reconnectAttempts + 1
      ∧ (disconnect
          (onOpen true ((connect "userDanilo" initialWSState).1)).1).userId
        = (onOpen true ((connect "userDanilo" initialWSState).1)).1.userId) :=
  ⟨by decide, close_after_disconnect_schedules_reconnect
    (onOpen true ((connect "userDanilo" initialWSState).1)).1 (by decide)⟩

/-- Claim C5 counterexample: after 5 consecutive failed connection cycles the
counter sits at 5 and no 6th automatic attempt is scheduled; a subsequent
explicit `connect` call does construct a new socket (attempts again) but
leaves the attempt counter at 5 — it does NOT reset it, contrary to the
claim. -/
theorem connect_does_not_reset_attempts :
    (iterFail 5 ((connect "userDanilo" initialWSState).1)).reconnectAttempts = 5
    ∧ (onClose (iterFail 5 ((connect "userDanilo" initialWSState).1))).2 = none
    ∧ (connect "userDanilo"
        (iterFail 5 ((connect "userDanilo" initialWSState).1))).2 = true
    ∧ (connect "userDanilo"
        (iterFail 5 ((connect "userDanilo" initialWSState).1))).1.reconnectAttempts
      = 5
    ∧ (5 : Nat) ≠ 0 := by
  decide

/-- Claim C5 amended: while the counter is below the maximum, the close
handler schedules the (a+1)-th attempt after `reconnectDelay * (a+1)` ms
(linear backoff, attempt numbering starting at 1); once the counter equals
the maximum no further attempt is scheduled; a successful open resets the
counter to 0; an explicit `connect` on a non-open socket constructs a new
socket (attempts again) but leaves the counter unchanged — the counter only
resets on a successful open. -/
theorem reconnect_backoff_behavior (s t : WSState) (u : String) (b : Bool)
    (h : s.reconnectAttempts < s.maxReconnectAttempts)
    (ht : t.reconnectAttempts = t.maxReconnectAttempts) :
    (attemptReconnect s).2
        = some (s.reconnectDelay * (s.reconnectAttempts + 1))
    ∧ (attemptReconnect s).1.reconnectAttempts = s.reconnectAttempts + 1
    ∧ (attemptReconnect t).2 = none
    ∧ ((onOpen b s).1).reconnectAttempts = 0
    ∧ (s.ws ≠ some ReadyState.OPEN →
        (connect u s).2 = true
        ∧ (connect u s).1.reconnectAttempts = s.reconnectAttempts) := by
  refine ⟨?_, ?_, ?_, ?_, fun hws => ?_⟩
  · unfold attemptReconnect; simp [h]
  · unfold attemptReconnect; simp [h]
  · unfold attemptReconnect; simp [ht]
  · unfold onOpen; cases s.currentPath <;> cases b <;> simp
  · unfold connect; simp [hws]

/-- Witness for `reconnect_backoff_behavior` at the freshly connected state
(counter 0) and the exhausted state reached by 5 failed cycles (counter 5). -/
theorem reconnect_backoff_behavior_witness :
    ((connect "userDanilo" initialWSState).1.reconnectAttempts
        < (connect "userDanilo" initialWSState).1.maxReconnectAttempts)
    ∧ ((iterFail 5 ((connect "userDanilo" initialWSState).1)).reconnectAttempts
        = (iterFail 5 ((connect "userDanilo" initialWSState).1)).maxReconnectAttempts)
    ∧ ((attemptReconnect ((connect "userDanilo" initialWSState).1)).2
        = some ((connect "userDanilo" initialWSState).1.reconnectDelay
            * ((connect "userDanilo" initialWSState).1.reconnectAttempts + 1))
      ∧ (attemptReconnect ((connect "userDanilo" initialWSState).1)).1.reconnectAttempts
        = (connect "userDanilo" initialWSState).1.reconnectAttempts + 1
      ∧ (attemptReconnect
          (iterFail 5 ((connect "userDanilo" initialWSState).1))).2 = none
      ∧ ((onOpen true ((connect "userDanilo" initialWSState).1)).1).reconnectAttempts = 0
      ∧ ((connect "userDanilo" initialWSState).1.ws ≠ some ReadyState.OPEN →
          (connect "userDanilo" ((connect "userDanilo" initialWSState).1)).2 = true
          ∧ (connect "userDanilo"
              ((connect "userDanilo" initialWSState).1)).1.reconnectAttempts
            = (connect "userDanilo" initialWSState).1.reconnectAttempts)) :=
  ⟨by decide, by decide,
    reconnect_backoff_behavior ((connect "userDanilo" initialWSState).1)
      (iterFail 5 ((connect "userDanilo" initialWSState).1))
      "userDanilo" true (by decide) (by decide)⟩

/-- Claim C8: a transition into `OPEN` with a remembered subscription path
recorded (and the socket still open when the post-open timer fires) sends
exactly one `{type: "subscribe", path}` frame; a `subscribePath` call made
while the socket is not yet open only records the intent and sends nothing,
leaving the announcement to the open transition. -/
theorem subscribe_announced_on_open (s t : WSState) (p q : String)
    (hp : s.currentPath = some p)
    (ht : t.ws ≠ some ReadyState.OPEN) :
    (onOpen true s).2 = [{ type := "subscribe", path := p }]
    ∧ (subscribePath q t).1.currentPath = some q
    ∧ (subscribePath q t).2 = [] := by
  refine ⟨?_, ?_, ?_⟩
  · unfold onOpen; simp [hp]
  · unfold subscribePath
    simp only []
    split <;> simp
  · unfold subscribePath; simp [ht]

/-- Witness for `subscribe_announced_on_open`: record `/docs` while
disconnected, then open — exactly one subscribe frame for `/docs` is sent. -/
theorem subscribe_announced_on_open_witness :
    ((subscribePath "/docs" initialWSState).1.currentPath = some "/docs")
    ∧ (initialWSState.ws ≠ some ReadyState.OPEN)
    ∧ ((onOpen true ((subscribePath "/docs" initialWSState).1)).2
        = [{ type := "subscribe", path := "/docs" }]
      ∧ (subscribePath "/docs" initialWSState).1.currentPath = some "/docs"
      ∧ (subscribePath "/docs" initialWSState).2 = []) :=
  ⟨by decide, by decide,
    subscribe_announced_on_open ((subscribePath "/docs" initialWSState).1)
      initialWSState "/docs" "/docs" (by decide) (by decide)⟩
